import Mathlib

/-!
Verification of the Weather-API cache-aside lookup service (`main.go`).

The development embeds the program shallowly:

* `Float32` models IEEE-754 binary32 values exactly, as canonical
  significand/exponent integer pairs; `convertFloat32ToString` models the
  source's wrapper around Go's `strconv.FormatFloat(float64(f), 'f', -1, 32)`
  (shortest round-tripping fixed-point decimal, no exponent).
* The redis client is modelled as a key→entry map plus failure oracles: a
  `getErr` flag for a failing `Get`, and a per-call `setOk` oracle for `Set`.
* The upstream HTTP call is modelled by a `ConnOutcome` oracle: connection
  failure, or a reply carrying a status code and a body that is unreadable,
  malformed, or a JSON value; `unmarshalAPIResponse` models Go
  `encoding/json` unmarshalling into the `APIResponse` struct.
* `APIResponse.Handle`, `callWeatherAPI` and `weatherHandler` are direct
  translations of the three functions of `main.go`.
-/

set_option maxRecDepth 1000000

/-- Exact-value model of an IEEE-754 binary32 number: the value is `m * 2 ^ e`,
kept in a canonical form (`m = 0` with `e = 0`; or `2^23 ≤ |m| < 2^24`; or
`e = -149` with `0 < |m| < 2^23` for subnormals). -/
structure Float32 where
  m : ℤ
  e : ℤ
  deriving DecidableEq, Repr

/-- Rounds the exact quotient `a / b` (with `b > 0`) to the nearest integer,
ties to even. -/
def rneDiv (a b : ℤ) : ℤ :=
  let q := Int.fdiv a b
  let r := a - b * q
  if 2 * r < b then q
  else if b < 2 * r then q + 1
  else if Int.emod q 2 = 0 then q else q + 1

/-- Decides `2 ^ e ≤ M / 10 ^ s` for `M > 0`, by cross-multiplying. -/
def le2pow (e : ℤ) (M : ℤ) (s : ℕ) : Bool :=
  if 0 ≤ e then decide ((2:ℤ) ^ e.toNat * 10 ^ s ≤ M)
  else decide ((10:ℤ) ^ s ≤ M * 2 ^ (-e).toNat)

/-- Largest exponent `e ≤ fuel - 151` with `2 ^ e ≤ M / 10 ^ s`, by downward scan. -/
def floorLog2DecAux (M : ℤ) (s : ℕ) : ℕ → ℤ
  | 0 => -150
  | fuel+1 =>
    let e : ℤ := (fuel : ℤ) - 150
    if le2pow e M s then e else floorLog2DecAux M s fuel

/-- Floor of the base-2 logarithm of `M / 10 ^ s` for `M > 0` in binary32 range. -/
def floorLog2Dec (M : ℤ) (s : ℕ) : ℤ := floorLog2DecAux M s 281

/-- Renormalises a rounded significand into canonical binary32 form. -/
def f32Canon (m : ℤ) (e : ℤ) : Float32 :=
  if m = 0 then ⟨0, 0⟩
  else if m = 2 ^ 24 then ⟨2 ^ 23, e + 1⟩
  else ⟨m, e⟩

/-- Rounds the positive decimal `M / 10 ^ s` to the nearest binary32 value
(round to nearest, ties to even). -/
def f32OfPosDec (M : ℤ) (s : ℕ) : Float32 :=
  let e := max (floorLog2Dec M s - 23) (-149)
  let m := if 0 ≤ e then rneDiv M ((10:ℤ) ^ s * 2 ^ e.toNat)
           else rneDiv (M * 2 ^ (-e).toNat) ((10:ℤ) ^ s)
  f32Canon m e

/-- Negation of a binary32 value. -/
def Float32.neg (f : Float32) : Float32 := ⟨-f.m, f.e⟩

/-- Rounds the decimal `M / 10 ^ s` to the nearest binary32 value. -/
def f32OfDec (M : ℤ) (s : ℕ) : Float32 :=
  if M = 0 then ⟨0, 0⟩
  else if M < 0 then (f32OfPosDec (-M) s).neg
  else f32OfPosDec M s

/-- Rounds `M / 10 ^ s` with a possibly negative scale `s` to binary32. -/
def f32OfDecZ (M : ℤ) (s : ℤ) : Float32 :=
  if 0 ≤ s then f32OfDec M s.toNat else f32OfDec (M * 10 ^ (-s).toNat) 0

/-- Decides `10 ^ k ≤ m * 2 ^ e` for `m > 0`, by cross-multiplying. -/
def le10powF (k : ℤ) (m e : ℤ) : Bool :=
  let a := if 0 ≤ k then (10:ℤ) ^ k.toNat else 1
  let b := if k < 0 then (10:ℤ) ^ (-k).toNat else 1
  let c := if 0 ≤ e then (2:ℤ) ^ e.toNat else 1
  let d := if e < 0 then (2:ℤ) ^ (-e).toNat else 1
  decide (a * d ≤ m * c * b)

/-- Largest `k ≤ fuel - 62` with `10 ^ k ≤ m * 2 ^ e`, by downward scan. -/
def floorLog10FAux (m e : ℤ) : ℕ → ℤ
  | 0 => -61
  | fuel+1 =>
    let k : ℤ := (fuel : ℤ) - 61
    if le10powF k m e then k else floorLog10FAux m e fuel

/-- Floor of the base-10 logarithm of `m * 2 ^ e` for `m > 0`. -/
def floorLog10F (m e : ℤ) : ℤ := floorLog10FAux m e 122

/-- Rounds the positive value `m * 2 ^ e` to `n` significant decimal digits;
the result `(D, s)` denotes the decimal `D / 10 ^ s`. -/
def sigRoundF (m e : ℤ) (n : ℕ) : ℤ × ℤ :=
  let s10 : ℤ := (n : ℤ) - 1 - floorLog10F m e
  let num := m * (if 0 ≤ e then (2:ℤ) ^ e.toNat else 1) *
             (if 0 ≤ s10 then (10:ℤ) ^ s10.toNat else 1)
  let den := (if e < 0 then (2:ℤ) ^ (-e).toNat else 1) *
             (if s10 < 0 then (10:ℤ) ^ (-s10).toNat else 1)
  (rneDiv num den, s10)

/-- Searches for the fewest significant decimal digits whose rounding of
`m * 2 ^ e` parses back to exactly that binary32 value. -/
def shortestDecAux (m e : ℤ) : ℕ → ℕ → ℤ × ℤ
  | 0, n => sigRoundF m e n
  | fuel+1, n =>
    let c := sigRoundF m e n
    if f32OfDecZ c.1 c.2 = Float32.mk m e then c else shortestDecAux m e fuel (n+1)

/-- Shortest round-tripping decimal for the positive binary32 value `m * 2 ^ e`. -/
def shortestDecF (m e : ℤ) : ℤ × ℤ := shortestDecAux m e 130 1

/-- Removes trailing zero decimal digits: divides `D` by 10 while the scale allows. -/
def stripZeroAux : ℕ → ℤ → ℕ → ℤ × ℕ
  | 0, D, s => (D, s)
  | fuel+1, D, s =>
    if s = 0 then (D, 0)
    else if Int.emod D 10 = 0 then stripZeroAux fuel (Int.fdiv D 10) (s - 1)
    else (D, s)

/-- Left-pads a digit string with zeros to the given length. -/
def padLeftZeros (cs : List Char) (n : ℕ) : List Char :=
  List.replicate (n - cs.length) '0' ++ cs

/-- Renders the positive decimal `D / 10 ^ s10` in fixed-point notation with no
exponent and no trailing fractional zeros. -/
def renderPosDec (D : ℤ) (s10 : ℤ) : String :=
  if s10 ≤ 0 then Nat.repr (D.toNat * 10 ^ (-s10).toNat)
  else
    let p := stripZeroAux s10.toNat D s10.toNat
    if p.2 = 0 then Nat.repr p.1.toNat
    else
      let ip := p.1.toNat / 10 ^ p.2
      let fp := p.1.toNat % 10 ^ p.2
      Nat.repr ip ++ "." ++ String.mk (padLeftZeros (Nat.repr fp).data p.2)

/-- Model of the source's `convertFloat32ToString` (main.go lines 140-142), i.e.
Go's `strconv.FormatFloat(float64(f), 'f', -1, 32)`: fixed-point decimal
notation, no exponent, with the smallest number of digits that parses back to
the same binary32 value. -/
def convertFloat32ToString (f : Float32) : String :=
  if f.m = 0 then "0"
  else if f.m < 0 then
    "-" ++ renderPosDec (shortestDecF (-f.m) f.e).1 (shortestDecF (-f.m) f.e).2
  else renderPosDec (shortestDecF f.m f.e).1 (shortestDecF f.m f.e).2

/-- Numeric value of a decimal digit character, if it is one. -/
def digitVal (c : Char) : Option ℕ :=
  if '0' ≤ c ∧ c ≤ '9' then some (c.toNat - 48) else none

/-- Reads a digit string as a natural number, failing on a non-digit. -/
def digitsToNat : List Char → ℕ → Option ℕ
  | [], acc => some acc
  | c :: cs, acc =>
    match digitVal c with
    | some d => digitsToNat cs (10 * acc + d)
    | none => none

/-- Splits a character list at the first dot, if any. -/
def splitAtDot : List Char → List Char × List Char
  | [] => ([], [])
  | c :: cs =>
    if c = '.' then ([], cs)
    else
      let p := splitAtDot cs
      (c :: p.1, p.2)

/-- Reads an unsigned fixed-point decimal string; the result `(M, s)` denotes
`M / 10 ^ s`. -/
def parsePosDec (cs : List Char) : Option (ℕ × ℕ) :=
  if cs = [] then none
  else
    let p := splitAtDot cs
    if p.1 = [] then none
    else
      match digitsToNat p.1 0 with
      | none => none
      | some i =>
        match digitsToNat p.2 0 with
        | none => none
        | some f => some (i * 10 ^ p.2.length + f, p.2.length)

/-- Model of reading a fixed-point decimal string back as a binary32 value
(round to nearest, ties to even), as Go's `strconv.ParseFloat(s, 32)` does on
such strings; used to state the formatting round-trip property. -/
def parseFloat32 (str : String) : Option Float32 :=
  match str.data with
  | '-' :: rest => (parsePosDec rest).map fun p => (f32OfDec (p.1 : ℤ) p.2).neg
  | cs => (parsePosDec cs).map fun p => f32OfDec (p.1 : ℤ) p.2

/-- Error values of the program: the two package-level sentinels of main.go
lines 56-57, plus one value standing for an arbitrary error returned by the
redis client on `Get` or `Set`. -/
inductive GoError
  | ErrAPIConnect
  | ErrAPIResponse
  | RedisError
  deriving DecidableEq, Repr

/-- Entry stored in redis under one key: the value string together with the
time-to-live passed at write time (in nanoseconds, as Go durations are). -/
structure CacheEntry where
  value : String
  ttl : Nat
  deriving DecidableEq, Repr

/-- State of the redis store: a mapping from keys to entries. -/
def Cache : Type := String → Option CacheEntry

/-- A successful `Set` with TTL: binds the key to the entry. -/
def cacheSet (c : Cache) (k v : String) (ttl : Nat) : Cache :=
  fun k2 => if k2 = k then some ⟨v, ttl⟩ else c k2

/-- The cache with no entries. -/
def emptyCache : Cache := fun _ => none

/-- Go's `time.Hour` in nanoseconds, the TTL used by every cache write. -/
def timeHour : Nat := 3600000000000

/-- The `currentConditions` part of the provider response (main.go lines 27-30). -/
structure CurrentConditions where
  temp : Float32
  stations : List String
  deriving DecidableEq, Repr

/-- The provider response struct (main.go lines 24-31). -/
structure APIResponse where
  address : String
  resolvedAddress : String
  currentConditions : CurrentConditions
  deriving DecidableEq, Repr

/-- The `Weather` struct (main.go lines 19-22). -/
structure Weather where
  Locations : List String
  Temp : Float32
  deriving DecidableEq, Repr

/-- Alias slice built by `APIResponse.Handle` (main.go lines 34-41): a slice of
length `2 + len(stations)` whose slot 0 is `address`, slot 1 is
`resolvedAddress`, and slot `2+i` is `stations[i]`. -/
def APIResponse.locations (r : APIResponse) : List String :=
  (List.range (2 + r.currentConditions.stations.length)).map fun i =>
    if i = 0 then r.address
    else if i = 1 then r.resolvedAddress
    else r.currentConditions.stations.getD (i - 2) ""

/-- One attempted redis `Set` call: key, value and TTL passed. -/
structure SetCall where
  key : String
  value : String
  ttl : Nat
  deriving DecidableEq, Repr

/-- The write loop of `APIResponse.Handle` (main.go lines 47-52): one redis
`Set` per key, in order; `setOk i` says whether the `i`-th `Set` call of this
request succeeds. A failing call writes nothing and exits the loop. Returns
the success flag, the cache after the attempted writes, and the ordered trace
of attempted calls. -/
def runSets (setOk : Nat → Bool) (v : String) : List String → Nat → Cache →
    Bool × Cache × List SetCall
  | [], _, c => (true, c, [])
  | k :: ks, i, c =>
    if setOk i then
      let p := runSets setOk v ks (i + 1) (cacheSet c k v timeHour)
      (p.1, p.2.1, SetCall.mk k v timeHour :: p.2.2)
    else (false, c, [SetCall.mk k v timeHour])

/-- Model of `APIResponse.Handle` (main.go lines 33-54): builds the alias
slice and the `Weather` value, then writes the formatted temperature under
every alias with a one-hour TTL, stopping at the first failed write (which is
returned as the error, leaving earlier writes committed). -/
def APIResponse.Handle (r : APIResponse) (setOk : Nat → Bool) (c : Cache) :
    Option Weather × Cache × List SetCall :=
  let weather : Weather := ⟨r.locations, r.currentConditions.temp⟩
  let p := runSets setOk (convertFloat32ToString weather.Temp) r.locations 0 c
  (if p.1 then some weather else none, p.2.1, p.2.2)

/-- JSON values; numbers are carried as exact decimals `M / 10 ^ s`. -/
inductive JVal
  | null
  | bool (b : Bool)
  | num (M : ℤ) (s : ℕ)
  | str (s : String)
  | arr (elems : List JVal)
  | obj (fields : List (String × JVal))

/-- ASCII-lowercased code point of a character, for Go's case-insensitive
JSON field matching. -/
def chLowerNat (c : Char) : ℕ :=
  if 65 ≤ c.toNat ∧ c.toNat ≤ 90 then c.toNat + 32 else c.toNat

/-- Case-insensitive string comparison (ASCII), as `encoding/json` uses to
match object keys to struct fields. -/
def lowerEq (a b : String) : Bool :=
  a.data.map chLowerNat == b.data.map chLowerNat

/-- Looks a struct field name up in a JSON object, preferring an exact key
match and falling back to a case-insensitive one, as `encoding/json` does. -/
def jsonField (fields : List (String × JVal)) (key : String) : Option JVal :=
  match fields.find? (fun p => p.1 == key) with
  | some p => some p.2
  | none => (fields.find? (fun p => lowerEq p.1 key)).map (fun p => p.2)

/-- Unmarshals an optional JSON field into a Go `string` field: absent or
`null` leaves the zero value, a string sets it, anything else is an error. -/
def jGetString (v : Option JVal) : Option String :=
  match v with
  | none => some ""
  | some .null => some ""
  | some (.str s) => some s
  | some _ => none

/-- Unmarshals a list of JSON values into Go `[]string` elements. -/
def stringsOfJList : List JVal → Option (List String)
  | [] => some []
  | .str s :: rest =>
    match stringsOfJList rest with
    | some xs => some (s :: xs)
    | none => none
  | _ :: _ => none

/-- Unmarshals an optional JSON field into a Go `[]string` field: absent or
`null` leaves it empty, an array of strings sets it, anything else is an
error. -/
def jGetStations (v : Option JVal) : Option (List String) :=
  match v with
  | none => some []
  | some .null => some []
  | some (.arr xs) => stringsOfJList xs
  | some _ => none

/-- Unmarshals an optional JSON field into a Go `float32` field: absent or
`null` leaves zero, a number is rounded to binary32, anything else is an
error. -/
def jGetTemp (v : Option JVal) : Option Float32 :=
  match v with
  | none => some ⟨0, 0⟩
  | some .null => some ⟨0, 0⟩
  | some (.num M s) => some (f32OfDec M s)
  | some _ => none

/-- Unmarshals the optional `currentConditions` object. -/
def unmarshalCC (v : Option JVal) : Option CurrentConditions :=
  match v with
  | none => some ⟨⟨0, 0⟩, []⟩
  | some .null => some ⟨⟨0, 0⟩, []⟩
  | some (.obj fs) =>
    match jGetTemp (jsonField fs "temp"), jGetStations (jsonField fs "stations") with
    | some t, some st => some ⟨t, st⟩
    | _, _ => none
  | some _ => none

/-- Model of `json.Unmarshal(body, &apiResponse)` (main.go line 73) per Go
`encoding/json` semantics: the document must be a JSON object (or `null`,
which leaves the zero struct); recognised fields must have matching types
when present; absent fields keep their zero values; unknown fields are
ignored. -/
def unmarshalAPIResponse (v : JVal) : Option APIResponse :=
  match v with
  | .null => some ⟨"", "", ⟨⟨0, 0⟩, []⟩⟩
  | .obj fs =>
    match jGetString (jsonField fs "address"), jGetString (jsonField fs "resolvedAddress"),
          unmarshalCC (jsonField fs "currentConditions") with
    | some a, some b, some cc => some ⟨a, b, cc⟩
    | _, _, _ => none
  | _ => none

/-- Outcome of reading the HTTP response body on a completed request. -/
inductive BodyOutcome
  | readErr
  | malformed
  | json (v : JVal)

/-- Outcome of the `http.Get` call to the provider: a connection-level
failure, or a reply with a status code and a body. -/
inductive ConnOutcome
  | connFail
  | reply (status : Nat) (body : BodyOutcome)

/-- Model of `callWeatherAPI` (main.go lines 59-80): a connection failure
yields `ErrAPIConnect`; an unreadable body, a malformed JSON body, or a JSON
body that does not unmarshal into `APIResponse` yields `ErrAPIResponse`; the
HTTP status code is never inspected. -/
def callWeatherAPI (o : ConnOutcome) : Except GoError APIResponse :=
  match o with
  | .connFail => .error .ErrAPIConnect
  | .reply _ b =>
    match b with
    | .readErr => .error .ErrAPIResponse
    | .malformed => .error .ErrAPIResponse
    | .json v =>
      match unmarshalAPIResponse v with
      | none => .error .ErrAPIResponse
      | some r => .ok r

/-- Observable outcome of one request: the HTTP response written. -/
inductive HandlerResult
  | badRequest (msg : String)
  | serverError (e : GoError)
  | ok (val : String)
  deriving DecidableEq, Repr

/-- Environment of one request: the redis state, whether the `Get` call fails
with a non-`redis.Nil` error, the outcome of the upstream HTTP call, and the
per-call success oracle for `Set`. -/
structure ReqEnv where
  cache : Cache
  getErr : Bool
  conn : ConnOutcome
  setOk : Nat → Bool

/-- Observable effects of one request: the response written, the final redis
state, whether `Get` was called, whether the provider was called, and the
ordered trace of attempted `Set` calls. -/
structure HandlerOut where
  result : HandlerResult
  cache : Cache
  getCalled : Bool
  providerCalled : Bool
  setCalls : List SetCall

/-- Model of `weatherHandler` (main.go lines 82-121): reject an empty
location before touching any collaborator; `Get` the location key (a
non-`redis.Nil` error is a server error, a missing key triggers the provider
call followed by `Handle`, a present key is returned as stored); finally
write the value with a 200 status. -/
def weatherHandler (location : String) (env : ReqEnv) : HandlerOut :=
  if location.length = 0 then
    ⟨.badRequest "missing location query parameter", env.cache, false, false, []⟩
  else if env.getErr then
    ⟨.serverError .RedisError, env.cache, true, false, []⟩
  else
    match env.cache location with
    | some entry => ⟨.ok entry.value, env.cache, true, false, []⟩
    | none =>
      match callWeatherAPI env.conn with
      | .error e => ⟨.serverError e, env.cache, true, true, []⟩
      | .ok resp =>
        let p := resp.Handle env.setOk env.cache
        match p.1 with
        | none => ⟨.serverError .RedisError, p.2.1, true, true, p.2.2⟩
        | some w => ⟨.ok (convertFloat32ToString w.Temp), p.2.1, true, true, p.2.2⟩

/-- Folds successful writes of value `v` with a one-hour TTL over a key list;
the cache a successful (or prefix of a failed) write loop produces. -/
def setAll (v : String) (ks : List String) (c : Cache) : Cache :=
  ks.foldl (fun c2 k => cacheSet c2 k v timeHour) c

def jC1 : JVal :=
  .obj [("address", .str "A"), ("resolvedAddress", .str "B"),
        ("currentConditions", .obj [("temp", .num 75 1), ("stations", .arr [.str "S1", .str "S2"])])]

def envC1 : ReqEnv := ⟨emptyCache, false, .reply 200 (.json jC1), fun _ => true⟩

def apiZero : APIResponse := ⟨"", "", ⟨⟨0, 0⟩, []⟩⟩

def envC10cex : ReqEnv := ⟨emptyCache, false, .reply 200 (.json (.num 5 0)), fun _ => true⟩

def rC1 : APIResponse := ⟨"A", "B", ⟨f32OfDec 75 1, ["S1", "S2"]⟩⟩

def cacheC2 : Cache := fun k => if k = "Paris" then some ⟨"21.5", 12345⟩ else none

def envC2 : ReqEnv := ⟨cacheC2, false, .connFail, fun _ => true⟩

def rC3 : APIResponse := ⟨"X", "X", ⟨f32OfDec 75 1, ["X", "S"]⟩⟩

def jC4 : JVal :=
  .obj [("address", .str "A"), ("resolvedAddress", .str "B"),
        ("currentConditions", .obj [("temp", .num 75 1), ("stations", .arr [.str "S1", .str "S2"])])]

def envC4 : ReqEnv := ⟨emptyCache, false, .reply 200 (.json jC4), fun _ => true⟩

def rC4 : APIResponse := ⟨"A", "B", ⟨f32OfDec 75 1, ["S1", "S2"]⟩⟩

def jC5 : JVal :=
  .obj [("address", .str "A"), ("resolvedAddress", .str "B"),
        ("currentConditions", .obj [("temp", .num 75 1), ("stations", .arr [.str "S1", .str "S2"])])]

def envC5 : ReqEnv := ⟨emptyCache, false, .reply 200 (.json jC5), fun n => decide (n < 2)⟩

def rC5 : APIResponse := ⟨"A", "B", ⟨f32OfDec 75 1, ["S1", "S2"]⟩⟩

def envC6a : ReqEnv := ⟨emptyCache, false, .connFail, fun _ => true⟩

def envC6b : ReqEnv := ⟨emptyCache, false, .reply 500 .readErr, fun _ => true⟩

def envC6c : ReqEnv := ⟨emptyCache, false, .reply 200 .malformed, fun _ => true⟩

def envC7 : ReqEnv := ⟨emptyCache, true, .connFail, fun _ => true⟩

def fsC10 : List (String × JVal) := [("message", .str "Invalid location")]

def envC10w : ReqEnv := ⟨emptyCache, false, .reply 502 (.json (.obj fsC10)), fun _ => true⟩

theorem map_getD_range {α : Type} (l : List α) (d : α) :
    (List.range l.length).map (fun i => l.getD i d) = l := by
  induction l with
  | nil => rfl
  | cons x xs ih =>
    rw [List.length_cons, List.range_succ_eq_map, List.map_cons, List.map_map]
    simp only [Function.comp_def, List.getD_cons_zero, List.getD_cons_succ]
    rw [ih]

theorem locations_eq (r : APIResponse) :
    r.locations = [r.address, r.resolvedAddress] ++ r.currentConditions.stations := by
  unfold APIResponse.locations
  have h2 : 2 + r.currentConditions.stations.length =
      r.currentConditions.stations.length + 1 + 1 := by omega
  rw [h2, List.range_succ_eq_map, List.range_succ_eq_map]
  simp only [List.map_cons, List.map_map, Function.comp_def, Nat.succ_ne_zero, if_false,
    Nat.succ_sub_succ_eq_sub, Nat.sub_zero, Nat.succ.injEq, reduceIte,
    List.getD_cons_zero, List.getD_cons_succ]
  rw [map_getD_range]
  rfl

theorem setAll_cons (v k : String) (ks : List String) (c : Cache) :
    setAll v (k :: ks) c = setAll v ks (cacheSet c k v timeHour) := rfl

theorem setAll_frame (v : String) : ∀ (ks : List String) (c : Cache) (z : String),
    z ∉ ks → setAll v ks c z = c z := by
  intro ks
  induction ks with
  | nil => intro c z _; rfl
  | cons k ks ih =>
    intro c z hz
    simp only [List.mem_cons, not_or] at hz
    rw [setAll_cons, ih _ z hz.2]
    simp [cacheSet, hz.1]

theorem setAll_mem (v : String) : ∀ (ks : List String) (c : Cache) (k : String),
    k ∈ ks → setAll v ks c k = some ⟨v, timeHour⟩ := by
  intro ks
  induction ks with
  | nil => intro c k h; cases h
  | cons x xs ih =>
    intro c k hk
    by_cases hx : k ∈ xs
    · rw [setAll_cons, ih _ k hx]
    · have : k = x := by
        rcases List.mem_cons.mp hk with h | h
        · exact h
        · exact absurd h hx
      subst this
      rw [setAll_cons, setAll_frame v xs _ k hx]
      simp [cacheSet]

theorem runSets_ok (setOk : Nat → Bool) (v : String) (ks : List String)
    (hall : ∀ n, setOk n = true) :
    ∀ (i : ℕ) (c : Cache),
    runSets setOk v ks i c =
      (true, setAll v ks c, ks.map fun k => SetCall.mk k v timeHour) := by
  induction ks with
  | nil => intro i c; rfl
  | cons k ks ih =>
    intro i c
    simp only [runSets, hall i, if_true, List.map_cons, setAll_cons]
    rw [ih]

theorem runSets_frame (setOk : Nat → Bool) (v : String) :
    ∀ (ks : List String) (i : ℕ) (c : Cache) (z : String), z ∉ ks →
    (runSets setOk v ks i c).2.1 z = c z := by
  intro ks
  induction ks with
  | nil => intro i c z _; rfl
  | cons k ks ih =>
    intro i c z hz
    simp only [List.mem_cons, not_or] at hz
    by_cases h : setOk i
    · simp only [runSets, h, if_true]
      rw [ih (i + 1) _ z hz.2]
      simp [cacheSet, hz.1]
    · simp [runSets, h]

theorem runSets_fail (setOk : Nat → Bool) (v : String) (j : ℕ)
    (hj : setOk j = false) (hbef : ∀ n, n < j → setOk n = true) :
    ∀ (ks : List String) (i : ℕ) (c : Cache), i ≤ j → j < i + ks.length →
    runSets setOk v ks i c =
      (false, setAll v (ks.take (j - i)) c,
       (ks.take (j - i + 1)).map fun k => SetCall.mk k v timeHour) := by
  intro ks
  induction ks with
  | nil =>
    intro i c h1 h2
    simp only [List.length_nil] at h2
    omega
  | cons k ks ih =>
    intro i c hle hlt
    by_cases hij : i = j
    · subst hij
      have hsub : i - i = 0 := by omega
      simp [runSets, hj, hsub, List.take_succ_cons, setAll]
    · have hlt2 : i < j := lt_of_le_of_ne hle hij
      have hsub : j - i = (j - (i + 1)) + 1 := by omega
      simp only [runSets, hbef i hlt2, if_true]
      rw [ih (i + 1) (cacheSet c k v timeHour) (by omega)
        (by simp only [List.length_cons] at hlt; omega)]
      rw [hsub]
      simp only [List.take_succ_cons, List.map_cons, setAll_cons]

theorem weatherHandler_hit (location : String) (env : ReqEnv) (entry : CacheEntry)
    (hloc : location.length ≠ 0) (hget : env.getErr = false)
    (hhit : env.cache location = some entry) :
    weatherHandler location env = ⟨.ok entry.value, env.cache, true, false, []⟩ := by
  unfold weatherHandler
  rw [if_neg hloc, hget]
  simp [hhit]

theorem weatherHandler_getErr (location : String) (env : ReqEnv)
    (hloc : location.length ≠ 0) (hget : env.getErr = true) :
    weatherHandler location env = ⟨.serverError .RedisError, env.cache, true, false, []⟩ := by
  unfold weatherHandler
  rw [if_neg hloc, hget]
  simp

theorem weatherHandler_apiErr (location : String) (env : ReqEnv) (e : GoError)
    (hloc : location.length ≠ 0) (hget : env.getErr = false)
    (hmiss : env.cache location = none) (hapi : callWeatherAPI env.conn = .error e) :
    weatherHandler location env = ⟨.serverError e, env.cache, true, true, []⟩ := by
  unfold weatherHandler
  rw [if_neg hloc, hget]
  simp [hmiss, hapi]

theorem weatherHandler_miss_ok (location : String) (env : ReqEnv) (r : APIResponse)
    (hloc : location.length ≠ 0) (hget : env.getErr = false)
    (hmiss : env.cache location = none) (hapi : callWeatherAPI env.conn = .ok r)
    (hset : ∀ n, env.setOk n = true) :
    weatherHandler location env =
      ⟨.ok (convertFloat32ToString r.currentConditions.temp),
       setAll (convertFloat32ToString r.currentConditions.temp) r.locations env.cache,
       true, true,
       r.locations.map fun k =>
         SetCall.mk k (convertFloat32ToString r.currentConditions.temp) timeHour⟩ := by
  unfold weatherHandler
  rw [if_neg hloc, hget]
  simp only [Bool.false_eq_true, if_false, hmiss, hapi]
  simp only [APIResponse.Handle]
  rw [runSets_ok env.setOk _ _ hset]
  rfl

theorem weatherHandler_miss_fail (location : String) (env : ReqEnv) (r : APIResponse) (j : ℕ)
    (hloc : location.length ≠ 0) (hget : env.getErr = false)
    (hmiss : env.cache location = none) (hapi : callWeatherAPI env.conn = .ok r)
    (hj : j < r.locations.length)
    (hfail : env.setOk j = false) (hbef : ∀ n, n < j → env.setOk n = true) :
    weatherHandler location env =
      ⟨.serverError .RedisError,
       setAll (convertFloat32ToString r.currentConditions.temp) (r.locations.take j) env.cache,
       true, true,
       (r.locations.take (j + 1)).map fun k =>
         SetCall.mk k (convertFloat32ToString r.currentConditions.temp) timeHour⟩ := by
  unfold weatherHandler
  rw [if_neg hloc, hget]
  simp only [Bool.false_eq_true, if_false, hmiss, hapi]
  simp only [APIResponse.Handle]
  rw [runSets_fail env.setOk _ j hfail hbef r.locations 0 env.cache (by omega)
    (by omega)]
  simp

theorem weatherHandler_miss_cache_frame (location : String) (env : ReqEnv) (r : APIResponse)
    (z : String)
    (hloc : location.length ≠ 0) (hget : env.getErr = false)
    (hmiss : env.cache location = none) (hapi : callWeatherAPI env.conn = .ok r)
    (hz : z ∉ r.locations) :
    (weatherHandler location env).cache z = env.cache z := by
  unfold weatherHandler
  rw [if_neg hloc, hget]
  simp only [Bool.false_eq_true, if_false, hmiss, hapi]
  simp only [APIResponse.Handle]
  have hframe := runSets_frame env.setOk
    (convertFloat32ToString r.currentConditions.temp) r.locations 0 env.cache z hz
  rcases hrs : runSets env.setOk
    (convertFloat32ToString r.currentConditions.temp) r.locations 0 env.cache with ⟨ok, c2, calls⟩
  rw [hrs] at hframe
  cases ok <;> simp only [hrs] <;> exact hframe

theorem lowerEq_refl (a : String) : lowerEq a a = true := by
  simp [lowerEq]

theorem jsonField_none (fs : List (String × JVal)) (key : String)
    (h : ∀ p ∈ fs, lowerEq p.1 key = false) : jsonField fs key = none := by
  unfold jsonField
  have h1 : fs.find? (fun p => p.1 == key) = none := by
    rw [List.find?_eq_none]
    intro p hp
    intro hbeq
    have hpk : p.1 = key := by simpa using hbeq
    have := h p hp
    rw [hpk, lowerEq_refl] at this
    cases this
  have h2 : fs.find? (fun p => lowerEq p.1 key) = none := by
    rw [List.find?_eq_none]
    intro p hp
    simp [h p hp]
  rw [h1, h2]
  rfl

theorem unmarshal_no_recognised_fields (fs : List (String × JVal))
    (h : ∀ p ∈ fs, lowerEq p.1 "address" = false ∧ lowerEq p.1 "resolvedAddress" = false ∧
      lowerEq p.1 "currentConditions" = false) :
    unmarshalAPIResponse (.obj fs) = some ⟨"", "", ⟨⟨0, 0⟩, []⟩⟩ := by
  simp only [unmarshalAPIResponse]
  rw [jsonField_none fs "address" (fun p hp => (h p hp).1),
    jsonField_none fs "resolvedAddress" (fun p hp => (h p hp).2.1),
    jsonField_none fs "currentConditions" (fun p hp => (h p hp).2.2)]
  rfl

/-- Claim C1: on a miss-driven lookup (the get succeeds and reports not-found)
where the provider returns a response with address `A`, resolvedAddress `B`,
stations `[S1, S2]` and temperature 7.5, and every cache write succeeds, the
handler returns the formatted temperature `"7.5"` computed from the response,
and the cache afterwards holds `"7.5"` under each of the keys `A`, `B`, `S1`
and `S2`, each written with the fixed one-hour TTL. -/
theorem miss_populates_all_aliases (location A B S1 S2 : String) (env : ReqEnv)
    (hloc : location.length ≠ 0) (hget : env.getErr = false)
    (hmiss : env.cache location = none)
    (hapi : callWeatherAPI env.conn = .ok ⟨A, B, ⟨f32OfDec 75 1, [S1, S2]⟩⟩)
    (hset : ∀ n, env.setOk n = true) :
    (weatherHandler location env).result = .ok "7.5" ∧
    ∀ k, (k = A ∨ k = B ∨ k = S1 ∨ k = S2) →
      (weatherHandler location env).cache k = some ⟨"7.5", timeHour⟩ := by
  have hfmt : convertFloat32ToString (f32OfDec 75 1) = "7.5" := by decide
  rw [weatherHandler_miss_ok location env _ hloc hget hmiss hapi hset]
  constructor
  · simpa using congrArg HandlerResult.ok hfmt
  · intro k hk
    have hkmem : k ∈ (APIResponse.mk A B ⟨f32OfDec 75 1, [S1, S2]⟩).locations := by
      rw [locations_eq]
      rcases hk with h | h | h | h <;> simp [h]
    simp only []
    rw [hfmt]
    exact setAll_mem _ _ _ _ hkmem

theorem miss_populates_all_aliases_witness :
    (weatherHandler "London" envC1).result = .ok "7.5" ∧
    (weatherHandler "London" envC1).cache "A" = some ⟨"7.5", timeHour⟩ ∧
    (weatherHandler "London" envC1).cache "B" = some ⟨"7.5", timeHour⟩ ∧
    (weatherHandler "London" envC1).cache "S1" = some ⟨"7.5", timeHour⟩ ∧
    (weatherHandler "London" envC1).cache "S2" = some ⟨"7.5", timeHour⟩ := by
  have h := miss_populates_all_aliases "London" "A" "B" "S1" "S2" envC1
    (by decide) rfl rfl rfl (fun _ => rfl)
  exact ⟨h.1, h.2 "A" (Or.inl rfl), h.2 "B" (Or.inr (Or.inl rfl)),
    h.2 "S1" (Or.inr (Or.inr (Or.inl rfl))), h.2 "S2" (Or.inr (Or.inr (Or.inr rfl)))⟩

/-- Claim C2: on a lookup whose location key is present in the cache (and the
get succeeds), the handler returns exactly the stored string, never calls the
provider, issues no cache write, and leaves the cache (entries and recorded
TTLs) unchanged. -/
theorem cache_hit_short_circuits (location : String) (env : ReqEnv) (entry : CacheEntry)
    (hloc : location.length ≠ 0) (hget : env.getErr = false)
    (hhit : env.cache location = some entry) :
    (weatherHandler location env).result = .ok entry.value ∧
    (weatherHandler location env).providerCalled = false ∧
    (weatherHandler location env).setCalls = [] ∧
    (weatherHandler location env).cache = env.cache := by
  rw [weatherHandler_hit location env entry hloc hget hhit]
  exact ⟨rfl, rfl, rfl, rfl⟩

theorem cache_hit_short_circuits_witness :
    (weatherHandler "Paris" envC2).result = .ok "21.5" ∧
    (weatherHandler "Paris" envC2).providerCalled = false ∧
    (weatherHandler "Paris" envC2).setCalls = [] ∧
    (weatherHandler "Paris" envC2).cache = envC2.cache :=
  cache_hit_short_circuits "Paris" envC2 ⟨"21.5", 12345⟩ (by decide) rfl rfl

/-- Claim C3: the alias sequence used for cache writes is exactly
`[address, resolvedAddress] ++ stations` in the order received, with no
sorting and no deduplication; its length is `2 + #stations`; and when writes
succeed, the writes issued are exactly one per alias in that order, all with
the same formatted value and the one-hour TTL (so duplicate aliases write the
same value to the same key). -/
theorem alias_sequence_exact (r : APIResponse) (setOk : Nat → Bool) (c : Cache)
    (hset : ∀ n, setOk n = true) :
    r.locations = [r.address, r.resolvedAddress] ++ r.currentConditions.stations ∧
    r.locations.length = 2 + r.currentConditions.stations.length ∧
    (r.Handle setOk c).2.2 = r.locations.map
      (fun k => SetCall.mk k (convertFloat32ToString r.currentConditions.temp) timeHour) := by
  refine ⟨locations_eq r, ?_, ?_⟩
  · rw [locations_eq]
    simp [List.length_append]
    omega
  · simp only [APIResponse.Handle]
    rw [runSets_ok setOk _ _ hset]

theorem alias_sequence_exact_witness :
    rC3.locations = [rC3.address, rC3.resolvedAddress] ++ rC3.currentConditions.stations ∧
    rC3.locations.length = 2 + rC3.currentConditions.stations.length ∧
    (rC3.Handle (fun _ => true) emptyCache).2.2 = rC3.locations.map
      (fun k => SetCall.mk k (convertFloat32ToString rC3.currentConditions.temp) timeHour) :=
  alias_sequence_exact rC3 (fun _ => true) emptyCache (fun _ => rfl)

/-- Claim C4: a miss-driven lookup writes only to keys in the alias sequence
of the response it received: every key outside that sequence is unchanged;
in particular, when the literal query string is not among the aliases, no
entry is written under it, so it still misses afterwards. -/
theorem no_cross_location_contamination (location : String) (env : ReqEnv) (r : APIResponse)
    (hloc : location.length ≠ 0) (hget : env.getErr = false)
    (hmiss : env.cache location = none)
    (hapi : callWeatherAPI env.conn = .ok r) :
    (∀ z, z ∉ r.locations → (weatherHandler location env).cache z = env.cache z) ∧
    (location ∉ r.locations → (weatherHandler location env).cache location = none) := by
  constructor
  · intro z hz
    exact weatherHandler_miss_cache_frame location env r z hloc hget hmiss hapi hz
  · intro hl
    rw [weatherHandler_miss_cache_frame location env r location hloc hget hmiss hapi hl]
    exact hmiss

theorem no_cross_location_contamination_witness :
    (weatherHandler "London" envC4).cache "Z" = envC4.cache "Z" ∧
    (weatherHandler "London" envC4).cache "London" = none := by
  have h := no_cross_location_contamination "London" envC4 rC4 (by decide) rfl rfl rfl
  exact ⟨h.1 "Z" (by decide), h.2 (by decide)⟩

/-- Claim C5: the alias write loop is not atomic: when the writes up to
position `j` succeed and the write at position `j` fails, the handler reports
a cache error (a failure status, no temperature value), exactly the first
`j + 1` writes were attempted, and the first `j` aliases remain committed in
the cache with the formatted value and one-hour TTL. -/
theorem write_failure_aborts_after_first_error (location : String) (env : ReqEnv)
    (r : APIResponse) (j : ℕ)
    (hloc : location.length ≠ 0) (hget : env.getErr = false)
    (hmiss : env.cache location = none)
    (hapi : callWeatherAPI env.conn = .ok r)
    (hj : j < r.locations.length)
    (hfail : env.setOk j = false) (hbef : ∀ n, n < j → env.setOk n = true) :
    (weatherHandler location env).result = .serverError .RedisError ∧
    (weatherHandler location env).setCalls =
      (r.locations.take (j + 1)).map
        (fun k => SetCall.mk k (convertFloat32ToString r.currentConditions.temp) timeHour) ∧
    ∀ k, k ∈ r.locations.take j →
      (weatherHandler location env).cache k =
        some ⟨convertFloat32ToString r.currentConditions.temp, timeHour⟩ := by
  rw [weatherHandler_miss_fail location env r j hloc hget hmiss hapi hj hfail hbef]
  refine ⟨rfl, rfl, ?_⟩
  intro k hk
  exact setAll_mem _ _ _ _ hk

theorem write_failure_aborts_after_first_error_witness :
    (weatherHandler "London" envC5).result = .serverError .RedisError ∧
    (weatherHandler "London" envC5).setCalls =
      (rC5.locations.take 3).map
        (fun k => SetCall.mk k (convertFloat32ToString rC5.currentConditions.temp) timeHour) ∧
    (weatherHandler "London" envC5).cache "A" =
      some ⟨convertFloat32ToString rC5.currentConditions.temp, timeHour⟩ := by
  have h := write_failure_aborts_after_first_error "London" envC5 rC5 2
    (by decide) rfl rfl rfl (by decide) rfl (fun n hn => decide_eq_true hn)
  exact ⟨h.1, h.2.1, h.2.2 "A" (by decide)⟩

/-- Claim C6: provider failures surface as two distinct error kinds and leave
the cache untouched with no write attempted: a connection-level failure yields
`ErrAPIConnect`, while an unreadable body, malformed JSON, or JSON that does
not unmarshal yields `ErrAPIResponse`. -/
theorem provider_failures_distinct (location : String) (env : ReqEnv)
    (hloc : location.length ≠ 0) (hget : env.getErr = false)
    (hmiss : env.cache location = none) :
    (env.conn = .connFail →
      (weatherHandler location env).result = .serverError .ErrAPIConnect ∧
      (weatherHandler location env).cache = env.cache ∧
      (weatherHandler location env).setCalls = []) ∧
    (∀ st, env.conn = .reply st .readErr →
      (weatherHandler location env).result = .serverError .ErrAPIResponse ∧
      (weatherHandler location env).cache = env.cache ∧
      (weatherHandler location env).setCalls = []) ∧
    (∀ st, env.conn = .reply st .malformed →
      (weatherHandler location env).result = .serverError .ErrAPIResponse ∧
      (weatherHandler location env).cache = env.cache ∧
      (weatherHandler location env).setCalls = []) ∧
    (∀ st v, env.conn = .reply st (.json v) → unmarshalAPIResponse v = none →
      (weatherHandler location env).result = .serverError .ErrAPIResponse ∧
      (weatherHandler location env).cache = env.cache ∧
      (weatherHandler location env).setCalls = []) := by
  refine ⟨?_, ?_, ?_, ?_⟩
  · intro h
    rw [weatherHandler_apiErr location env .ErrAPIConnect hloc hget hmiss (by rw [h]; rfl)]
    exact ⟨rfl, rfl, rfl⟩
  · intro st h
    rw [weatherHandler_apiErr location env .ErrAPIResponse hloc hget hmiss (by rw [h]; rfl)]
    exact ⟨rfl, rfl, rfl⟩
  · intro st h
    rw [weatherHandler_apiErr location env .ErrAPIResponse hloc hget hmiss (by rw [h]; rfl)]
    exact ⟨rfl, rfl, rfl⟩
  · intro st v h hun
    rw [weatherHandler_apiErr location env .ErrAPIResponse hloc hget hmiss
      (by rw [h]; simp [callWeatherAPI, hun])]
    exact ⟨rfl, rfl, rfl⟩

theorem provider_failures_distinct_witness :
    (weatherHandler "London" envC6a).result = .serverError .ErrAPIConnect ∧
    (weatherHandler "London" envC6b).result = .serverError .ErrAPIResponse ∧
    (weatherHandler "London" envC6c).result = .serverError .ErrAPIResponse ∧
    (weatherHandler "London" envC6a).setCalls = [] := by
  have ha := provider_failures_distinct "London" envC6a (by decide) rfl rfl
  have hb := provider_failures_distinct "London" envC6b (by decide) rfl rfl
  have hc := provider_failures_distinct "London" envC6c (by decide) rfl rfl
  exact ⟨(ha.1 rfl).1, (hb.2.1 500 rfl).1, (hc.2.2.1 200 rfl).1, (ha.1 rfl).2.2⟩

/-- Claim C7: when the cache get fails for a reason other than not-found, the
handler propagates a cache error and the provider is never called (and the
cache is left unchanged with no write attempted). -/
theorem get_error_skips_provider (location : String) (env : ReqEnv)
    (hloc : location.length ≠ 0) (hget : env.getErr = true) :
    (weatherHandler location env).result = .serverError .RedisError ∧
    (weatherHandler location env).providerCalled = false ∧
    (weatherHandler location env).cache = env.cache ∧
    (weatherHandler location env).setCalls = [] := by
  rw [weatherHandler_getErr location env hloc hget]
  exact ⟨rfl, rfl, rfl, rfl⟩

theorem get_error_skips_provider_witness :
    (weatherHandler "London" envC7).result = .serverError .RedisError ∧
    (weatherHandler "London" envC7).providerCalled = false := by
  have h := get_error_skips_provider "London" envC7 (by decide) rfl
  exact ⟨h.1, h.2.1⟩

/-- Claim C8: a lookup with an empty location string fails with the
client-error (bad request) response before any collaborator is touched:
neither the cache store nor the provider is called, and no write occurs. -/
theorem empty_location_rejected (env : ReqEnv) :
    (weatherHandler "" env).result = .badRequest "missing location query parameter" ∧
    (weatherHandler "" env).getCalled = false ∧
    (weatherHandler "" env).providerCalled = false ∧
    (weatherHandler "" env).setCalls = [] ∧
    (weatherHandler "" env).cache = env.cache :=
  ⟨rfl, rfl, rfl, rfl, rfl⟩

/-- Claim C9: the temperature formatter renders binary32 values as shortest
round-trippable fixed-point decimals: for the representative values
0, -3.25, 100, 7.5 and -0.1 (taken as binary32), formatting then parsing back
yields the original binary32 value; in particular 7.5 formats as "7.5" and
12.0 formats as "12". -/
theorem temperature_format_round_trip :
    parseFloat32 (convertFloat32ToString (f32OfDec 0 0)) = some (f32OfDec 0 0) ∧
    parseFloat32 (convertFloat32ToString (f32OfDec (-325) 2)) = some (f32OfDec (-325) 2) ∧
    parseFloat32 (convertFloat32ToString (f32OfDec 100 0)) = some (f32OfDec 100 0) ∧
    parseFloat32 (convertFloat32ToString (f32OfDec 75 1)) = some (f32OfDec 75 1) ∧
    parseFloat32 (convertFloat32ToString (f32OfDec (-1) 1)) = some (f32OfDec (-1) 1) ∧
    convertFloat32ToString (f32OfDec 75 1) = "7.5" ∧
    convertFloat32ToString (f32OfDec 12 0) = "12" :=
  ⟨by decide, by decide, by decide, by decide, by decide, by decide, by decide⟩

/-- Claim C10, counterexample: the JSON number `5` is a valid JSON body, yet
the miss-driven lookup receiving it fails with `ErrAPIResponse` instead of
succeeding with "0" — unmarshalling a non-object document into the response
struct is an error, so not every valid-JSON body is treated as success. -/
theorem valid_json_body_not_always_success :
    (weatherHandler "London" envC10cex).result = .serverError .ErrAPIResponse ∧
    ¬ (weatherHandler "London" envC10cex).result = .ok "0" :=
  ⟨rfl, by decide⟩

/-- Claim C10 (amended): the provider-call stage fails with `ErrAPIResponse`
exactly when the body is unreadable, malformed JSON, or valid JSON that does
not unmarshal into the response struct; the HTTP status code is never
inspected; absent fields default to zero values; and a miss-driven lookup
whose body is a JSON object with none of the recognised fields (such as an
error reply or `{}`) is treated as success: it writes "0" under the
empty-string address/resolvedAddress key and returns "0". -/
theorem json_error_reply_yields_zero (location : String) (env : ReqEnv) (st : Nat)
    (fs : List (String × JVal))
    (hloc : location.length ≠ 0) (hget : env.getErr = false)
    (hmiss : env.cache location = none)
    (hconn : env.conn = .reply st (.json (.obj fs)))
    (hrec : ∀ p ∈ fs, lowerEq p.1 "address" = false ∧ lowerEq p.1 "resolvedAddress" = false ∧
      lowerEq p.1 "currentConditions" = false)
    (hset : ∀ n, env.setOk n = true) :
    (∀ s1 s2 b, callWeatherAPI (.reply s1 b) = callWeatherAPI (.reply s2 b)) ∧
    (∀ s b, callWeatherAPI (.reply s b) = .error .ErrAPIResponse ↔
      (b = .readErr ∨ b = .malformed ∨ ∃ v, b = .json v ∧ unmarshalAPIResponse v = none)) ∧
    unmarshalAPIResponse (.obj fs) = some apiZero ∧
    (weatherHandler location env).result = .ok "0" ∧
    (weatherHandler location env).cache "" = some ⟨"0", timeHour⟩ := by
  have hun : unmarshalAPIResponse (.obj fs) = some apiZero :=
    unmarshal_no_recognised_fields fs hrec
  have hapi : callWeatherAPI env.conn = .ok apiZero := by
    rw [hconn]
    simp [callWeatherAPI, hun]
  refine ⟨fun s1 s2 b => rfl, ?_, hun, ?_, ?_⟩
  · intro s b
    cases b with
    | readErr => simp [callWeatherAPI]
    | malformed => simp [callWeatherAPI]
    | json v =>
      rcases h : unmarshalAPIResponse v with _ | r
      · simp [callWeatherAPI, h]
      · simp [callWeatherAPI, h]
  · rw [weatherHandler_miss_ok location env apiZero hloc hget hmiss hapi hset]
    rfl
  · rw [weatherHandler_miss_ok location env apiZero hloc hget hmiss hapi hset]
    have hmem : "" ∈ apiZero.locations := by
      rw [locations_eq]
      simp only [List.mem_append, List.mem_cons]
      exact Or.inl (Or.inl rfl)
    have hm := setAll_mem (convertFloat32ToString apiZero.currentConditions.temp)
      apiZero.locations env.cache "" hmem
    have hv : convertFloat32ToString apiZero.currentConditions.temp = "0" := rfl
    rw [hv] at hm
    exact hm

theorem json_error_reply_yields_zero_witness :
    (weatherHandler "London" envC10w).result = .ok "0" ∧
    (weatherHandler "London" envC10w).cache "" = some ⟨"0", timeHour⟩ := by
  have h := json_error_reply_yields_zero "London" envC10w 502 fsC10
    (by decide) rfl rfl rfl (by decide) (fun _ => rfl)
  exact ⟨h.2.2.2.1, h.2.2.2.2⟩
